import Mathlib

/-! Shallow embedding of `src/src/workflows/computer.ts`: the three Docker
sandbox tasks (`createContainer`, `runCommandInContainer`, `removeContainer`)
working against the single fixed container name, modelled over an explicit
state of the Docker daemon restricted to that name, together with the exec
output-stream demultiplexer. Each task is embedded as a pure function from
its input and the daemon state to a result, the updated daemon state, and a
trace of the runtime API calls it issued. -/

namespace ComputerTs

/-- The fixed container name used by every task (computer.ts line 11). -/
def CONTAINER_NAME : String := "container-name"

/-- Model of a Docker `HostConfig` record (the zod schema is a generic
string-keyed record, `z.record(z.any())`). -/
abbrev HostConfig := List (String × String)

/-- The daemon-side data of the one container addressable under the fixed
name: its runtime-assigned id, running state, and the image/cmd/hostConfig it
was created with. -/
structure ContainerInfo where
  Id : String
  Running : Bool
  image : String
  cmd : Option (List String)
  hostConfig : Option HostConfig
deriving Repr, DecidableEq

/-- Docker daemon state restricted to the fixed name: the container bound to
that name, if any, and a counter from which fresh container ids are drawn. -/
structure DockerState where
  container : Option ContainerInfo
  nextId : Nat
deriving Repr, DecidableEq

/-- Errors the modelled Docker API reports: a 404 not-found, a 409 name
conflict on create, or any other error carrying a message. -/
inductive DockerErr where
  | notFound
  | conflict
  | other (msg : String)
deriving Repr, DecidableEq

/-- The message text carried by a modelled Docker error. -/
def DockerErr.message : DockerErr → String
  | .notFound => "no such container"
  | .conflict => "Conflict. The container name is already in use"
  | .other m => m

/-- The exec-create options the source passes to `container.exec` at
computer.ts lines 176-181. The source call carries exactly these four
fields; in particular it has no working-directory field (line 54 of the
input schema only notes `workingDir` as a possible future addition). -/
structure ExecConfig where
  Cmd : List String
  AttachStdout : Bool
  AttachStderr : Bool
  Tty : Bool
deriving Repr, DecidableEq

/-- One runtime API call issued by a task, with the data it carried. -/
inductive Event where
  | inspect
  | create (image : String) (cmd : Option (List String)) (hostConfig : Option HostConfig)
  | start
  | stop
  | exec (cfg : ExecConfig)
  | remove (force : Bool) (v : Bool)
deriving Repr, DecidableEq

/-- Whether an event is a container-create call. -/
def Event.isCreate : Event → Bool
  | .create _ _ _ => true
  | _ => false

/-- Whether an event is a container-remove call. -/
def Event.isRemove : Event → Bool
  | .remove _ _ => true
  | _ => false

instance {ε α : Type} [DecidableEq ε] [DecidableEq α] : DecidableEq (Except ε α) := fun x y =>
  match x, y with
  | .ok a, .ok b =>
      if h : a = b then .isTrue (congrArg Except.ok h)
      else .isFalse (fun hh => h (Except.ok.inj hh))
  | .ok _, .error _ => .isFalse (fun hh => Except.noConfusion hh)
  | .error _, .ok _ => .isFalse (fun hh => Except.noConfusion hh)
  | .error a, .error b =>
      if h : a = b then .isTrue (congrArg Except.error h)
      else .isFalse (fun hh => h (Except.error.inj hh))

/-- Outcome of one task invocation: the value returned or the message of the
thrown Error, the daemon state afterwards, and the runtime calls issued. -/
structure TaskResult (α : Type) where
  result : Except String α
  state : DockerState
  trace : List Event
deriving Repr, DecidableEq

/-! Semantics of the modelled Docker runtime calls for the fixed name. -/

/-- `GET /containers/container-name/json`: the container, or a 404. -/
def dockerInspect (st : DockerState) : Except DockerErr ContainerInfo :=
  match st.container with
  | some c => .ok c
  | none => .error .notFound

/-- `POST /containers/container-name/start`: mark the container running. -/
def dockerStart (st : DockerState) : Except DockerErr Unit × DockerState :=
  match st.container with
  | some c => (.ok (), { st with container := some { c with Running := true } })
  | none => (.error .notFound, st)

/-- `POST /containers/create?name=container-name`: reject with a 409 conflict
when the name is taken, otherwise bind a fresh id to the name (created
containers start out stopped; the task starts them separately). -/
def dockerCreate (image : String) (cmd : Option (List String))
    (hostConfig : Option HostConfig) (st : DockerState) :
    Except DockerErr String × DockerState :=
  match st.container with
  | some _ => (.error .conflict, st)
  | none =>
      let id := "id-" ++ toString st.nextId
      (.ok id,
        { container := some { Id := id, Running := false, image := image,
                              cmd := cmd, hostConfig := hostConfig },
          nextId := st.nextId + 1 })

/-- `DELETE /containers/container-name`: a 404 when absent; refused while the
container is running unless `force` is set; otherwise the name is freed. -/
def dockerRemove (force : Bool) (st : DockerState) :
    Except DockerErr Unit × DockerState :=
  match st.container with
  | none => (.error .notFound, st)
  | some c =>
      if c.Running && !force then
        (.error (.other "cannot remove a running container"), st)
      else
        (.ok (), { st with container := none })

/-! The `createContainer` task (computer.ts lines 81-149). -/

/-- Input of `create-docker-container` (`CreateContainerInputSchema`). -/
structure CreateInput where
  image : String
  cmd : Option (List String)
  hostConfig : Option HostConfig
deriving Repr, DecidableEq

/-- The message of the Error thrown by the outer catch of `createContainer`
(computer.ts lines 144-146). -/
def createWrap (m : String) : String :=
  "Failed to ensure container '" ++ CONTAINER_NAME ++ "' exists: " ++ m

/-- Outcome of the inner try of `createContainer` (computer.ts lines 90-118):
either the container was found (after an optional start) and its id is
returned, or a 404 escaped the block and creation proceeds, or a non-404
error was re-thrown. -/
inductive FoundOutcome where
  | found (id : String)
  | proceed
  | failed (e : DockerErr)
deriving Repr, DecidableEq

/-- The inner try of `createContainer`: inspect the fixed name and, when the
container exists but is not running, start it. A 404 thrown anywhere in the
block (from the inspect, or from the start) is swallowed and creation
proceeds; any other error is re-thrown (computer.ts lines 104-118). -/
def inspectPhase (st : DockerState) : FoundOutcome × DockerState × List Event :=
  match dockerInspect st with
  | .error .notFound => (.proceed, st, [.inspect])
  | .error e => (.failed e, st, [.inspect])
  | .ok info =>
      if info.Running then (.found info.Id, st, [.inspect])
      else
        match dockerStart st with
        | (.ok _, st1) => (.found info.Id, st1, [.inspect, .start])
        | (.error .notFound, st1) => (.proceed, st1, [.inspect, .start])
        | (.error e, st1) => (.failed e, st1, [.inspect, .start])

/-- The creation path of `createContainer` (computer.ts lines 120-139):
create the container under the fixed name with the caller-supplied image,
cmd and hostConfig, then start it and return the new id; any error is
wrapped by the outer catch. `mid` is the interference window between the
inspect that reported 404 and the create call: it is the daemon-state change
made by anything running concurrently (identity when the task runs alone). -/
def proceedCreate (mid : DockerState → DockerState) (input : CreateInput)
    (st : DockerState) : TaskResult String :=
  let st1 := mid st
  match dockerCreate input.image input.cmd input.hostConfig st1 with
  | (.error e, st2) =>
      ⟨.error (createWrap e.message), st2,
        [.create input.image input.cmd input.hostConfig]⟩
  | (.ok id, st2) =>
      match dockerStart st2 with
      | (.ok _, st3) =>
          ⟨.ok id, st3, [.create input.image input.cmd input.hostConfig, .start]⟩
      | (.error e, st3) =>
          ⟨.error (createWrap e.message), st3,
            [.create input.image input.cmd input.hostConfig, .start]⟩

/-- The `createContainer` task body, with an explicit interference window
`mid` between the not-found inspect and the create call (the race window of
two concurrent first-time calls). -/
def createContainerRun (mid : DockerState → DockerState) (input : CreateInput)
    (st : DockerState) : TaskResult String :=
  match inspectPhase st with
  | (.found id, st1, evs) => ⟨.ok id, st1, evs⟩
  | (.failed e, st1, evs) => ⟨.error (createWrap e.message), st1, evs⟩
  | (.proceed, st1, evs) =>
      let r := proceedCreate mid input st1
      ⟨r.result, r.state, evs ++ r.trace⟩

/-- The `createContainer` task as invoked sequentially: no concurrent
interference between its runtime calls. -/
def createContainer (input : CreateInput) (st : DockerState) : TaskResult String :=
  createContainerRun id input st

/-! The `removeContainer` task (computer.ts lines 281-315). -/

/-- Input of `remove-docker-container` (`RemoveContainerInputSchema`). -/
structure RemoveInput where
  force : Bool
  removeVolumes : Bool
deriving Repr, DecidableEq

/-- Output of `remove-docker-container` (`RemoveContainerOutputSchema`). -/
structure RemoveOutput where
  success : Bool
deriving Repr, DecidableEq

/-- The `removeContainer` task body: call remove on the fixed name directly
(no inspect, no stop) with the given force/volume options; a 404 becomes
`{success := false}`, any other error is wrapped and thrown
(computer.ts lines 286-314). -/
def removeContainer (input : RemoveInput) (st : DockerState) :
    TaskResult RemoveOutput :=
  match dockerRemove input.force st with
  | (.ok _, st1) =>
      ⟨.ok ⟨true⟩, st1, [.remove input.force input.removeVolumes]⟩
  | (.error .notFound, st1) =>
      ⟨.ok ⟨false⟩, st1, [.remove input.force input.removeVolumes]⟩
  | (.error e, st1) =>
      ⟨.error ("Failed to remove container '" ++ CONTAINER_NAME ++ "': " ++ e.message),
        st1, [.remove input.force input.removeVolumes]⟩

/-! The exec output-stream demultiplexer. The source delegates the decoding
to `docker.modem.demuxStream` (computer.ts line 224), a function of the
docker-modem dependency whose code is not under src/; it is modelled here
from the wire format the spec describes. -/

/-- Big-endian read of the 4-byte length field: the first four bytes of `l`
(absent bytes read as 0, which only happens on a truncated header). -/
def readBE32 (l : List Nat) : Nat :=
  l.getD 0 0 * 2 ^ 24 + l.getD 1 0 * 2 ^ 16 + l.getD 2 0 * 2 ^ 8 + l.getD 3 0

/-- Big-endian encoding of a payload length into the 4 header length bytes. -/
def toBE32 (n : Nat) : List Nat :=
  [n / 2 ^ 24 % 256, n / 2 ^ 16 % 256, n / 2 ^ 8 % 256, n % 256]

/-- Modelled from the spec: the state of the stream demultiplexer
(docker-modem demuxStream, not under src/) — the bytes buffered but not yet
consumed, the header already read whose payload is still awaited as
(stream-tag, payload length), and the bytes emitted so far to each sink. -/
structure DemuxState where
  buffer : List Nat
  pending : Option (Nat × Nat)
  stdoutData : List Nat
  stderrData : List Nat
deriving Repr, DecidableEq

/-- Termination measure of the demultiplexer loop: consuming a header takes
8 buffered bytes and sets `pending`; consuming a payload clears `pending`
and takes its declared length (possibly zero) from the buffer. -/
def demuxMeasure (s : DemuxState) : Nat :=
  2 * s.buffer.length + (if s.pending.isSome then 1 else 0)

/-- Modelled from the spec: one step of the demultiplexer. With a pending
header it waits for the declared payload length, then emits the payload to
the sink named by the stream-tag (1 = stdout, 2 = stderr, other tags
dropped); with no pending header it waits for the 8 header bytes (one tag
byte, three reserved bytes, a 4-byte big-endian length). `none` when the
buffered bytes do not complete the next header or payload. -/
def demuxStep (s : DemuxState) : Option DemuxState :=
  match s.pending with
  | some (t, len) =>
      if len ≤ s.buffer.length then
        some { buffer := s.buffer.drop len, pending := none,
               stdoutData :=
                 if t = 1 then s.stdoutData ++ s.buffer.take len else s.stdoutData,
               stderrData :=
                 if t = 2 then s.stderrData ++ s.buffer.take len else s.stderrData }
      else none
  | none =>
      if 8 ≤ s.buffer.length then
        some { buffer := s.buffer.drop 8,
               pending := some (s.buffer.getD 0 0, readBE32 (s.buffer.drop 4)),
               stdoutData := s.stdoutData, stderrData := s.stderrData }
      else none

/-- Run the demultiplexer loop for at most `fuel` steps. -/
def demuxRunFuel : Nat → DemuxState → DemuxState
  | 0, s => s
  | fuel + 1, s =>
      match demuxStep s with
      | none => s
      | some s1 => demuxRunFuel fuel s1

/-- Run the demultiplexer until no further record can be consumed
(`demuxMeasure` bounds the number of steps). -/
def demuxRun (s : DemuxState) : DemuxState :=
  demuxRunFuel (demuxMeasure s) s

/-- Append one chunk read from the stream to the buffer and consume as many
complete records as possible (the `processData` handler of demuxStream). -/
def demuxFeed (s : DemuxState) (chunk : List Nat) : DemuxState :=
  demuxRun { s with buffer := s.buffer ++ chunk }

/-- Feed a whole sequence of stream chunks through the demultiplexer. -/
def demuxFeedAll (s : DemuxState) (chunks : List (List Nat)) : DemuxState :=
  chunks.foldl demuxFeed s

/-- The demultiplexer before any byte has arrived. -/
def initDemux : DemuxState := ⟨[], none, [], []⟩

/-- One wire record framing a payload for one channel (`true` = stdout,
`false` = stderr): stream-tag byte, three reserved zero bytes, the 4-byte
big-endian payload length, then the payload itself. -/
def frameOf (r : Bool × List Nat) : List Nat :=
  (if r.1 then 1 else 2) :: 0 :: 0 :: 0 :: (toBE32 r.2.length ++ r.2)

/-- The framed byte sequence of a whole record sequence. -/
def framesOf : List (Bool × List Nat) → List Nat
  | [] => []
  | r :: rs => frameOf r ++ framesOf rs

/-- The concatenated payloads a record sequence tags for stdout. -/
def stdoutOf : List (Bool × List Nat) → List Nat
  | [] => []
  | (true, p) :: rs => p ++ stdoutOf rs
  | (false, _) :: rs => stdoutOf rs

/-- The concatenated payloads a record sequence tags for stderr. -/
def stderrOf : List (Bool × List Nat) → List Nat
  | [] => []
  | (true, _) :: rs => stderrOf rs
  | (false, p) :: rs => p ++ stderrOf rs

/-! The `runCommandInContainer` task (computer.ts lines 151-279). -/

/-- Input of `run-command-in-container` (`RunCommandInputSchema`), after zod
has applied the defaults (attach flags true, tty false). The schema has no
working-directory field: line 54 of the source only notes `workingDir` as a
possible future addition. -/
structure RunInput where
  cmd : List String
  attachStdout : Bool
  attachStderr : Bool
  tty : Bool
deriving Repr, DecidableEq

/-- Output of `run-command-in-container` (`RunCommandOutputSchema`). The
stdout/stderr strings are modelled as the byte sequences they decode from. -/
structure RunOutput where
  stdout : List Nat
  stderr : List Nat
  exitCode : Option Int
deriving Repr, DecidableEq

/-- The exec-create options the source builds from its input at computer.ts
lines 176-181: exactly the argv, the two attach flags and the tty flag. -/
def mkExecConfig (input : RunInput) : ExecConfig :=
  ⟨input.cmd, input.attachStdout, input.attachStderr, input.tty⟩

/-- The message of the Error thrown by the outer catch of
`runCommandInContainer` (computer.ts lines 274-276). -/
def runWrap (statusCode : String) (m : String) : String :=
  "Failed to run command in container '" ++ CONTAINER_NAME ++ "' (Status: " ++
    statusCode ++ "): " ++ m

/-- The message of the Error thrown when the inspect preceding the exec
reports a 404 (computer.ts lines 169-171). -/
def containerMissingMsg : String :=
  "Container '" ++ CONTAINER_NAME ++ "' does not exist. Please create it first."

/-- The `runCommandInContainer` task body. The chunks the exec stream
delivers and the exit code the final exec-inspect reports are runtime data
and enter as parameters. When the fixed name resolves, the task creates and
starts an exec context; with tty it concatenates the raw stream into stdout
and leaves stderr empty, without tty it feeds the stream through the
demultiplexer. When the inspect reports a 404 the thrown Error (no
statusCode field) is re-wrapped by the outer catch with status "N/A";
this task never issues a create. -/
def runCommandInContainer (input : RunInput) (st : DockerState)
    (chunks : List (List Nat)) (exitCode : Option Int) : TaskResult RunOutput :=
  match dockerInspect st with
  | .error .notFound =>
      ⟨.error (runWrap "N/A" containerMissingMsg), st, [.inspect]⟩
  | .error e =>
      ⟨.error (runWrap "N/A" e.message), st, [.inspect]⟩
  | .ok _ =>
      if input.tty then
        ⟨.ok ⟨chunks.flatten, [], exitCode⟩, st, [.inspect, .exec (mkExecConfig input)]⟩
      else
        let final := demuxFeedAll initDemux chunks
        ⟨.ok ⟨final.stdoutData, final.stderrData, exitCode⟩, st,
          [.inspect, .exec (mkExecConfig input)]⟩

/-- Modelled from the spec: the caller-facing `run-command` operation is
specified as `run-command(argv, workingDir?, tty?, attachStdout?,
attachStderr?)` — a CommandSpec carrying an optional working directory,
which the source schema does not have. -/
structure SpecCommandSpec where
  argv : List String
  workingDir : Option String
  tty : Bool
  attachStdout : Bool
  attachStderr : Bool
deriving Repr, DecidableEq

/-- The only translation of a spec-level CommandSpec the source accepts:
its input schema has no working-directory field, so `workingDir` is
necessarily dropped. -/
def toRunInput (s : SpecCommandSpec) : RunInput :=
  ⟨s.argv, s.attachStdout, s.attachStderr, s.tty⟩

/-- Iterate `createContainer` n times sequentially with the same input:
the per-call results, the final daemon state, and the concatenated trace of
runtime calls. -/
def createContainerN : Nat → CreateInput → DockerState → List (Except String String) × DockerState × List Event
  | 0, _, st => ([], st, [])
  | n + 1, input, st =>
      let r := createContainer input st
      let rest := createContainerN n input r.state
      (r.result :: rest.1, rest.2.1, r.trace ++ rest.2.2)

/-- The container id a `createContainer` call starting from `st` returns:
the id of the container already bound to the fixed name, or the fresh id
drawn when none is. -/
def predictedId (st : DockerState) : String :=
  match st.container with
  | some c => c.Id
  | none => "id-" ++ toString st.nextId

/-! Helper lemmas about the `createContainer` paths. -/

/-- Found path, container already running: `createContainer` only inspects
and returns the existing id, leaving the daemon state unchanged. -/
theorem createContainer_found_running (input : CreateInput) (st : DockerState)
    (c : ContainerInfo) (h : st.container = some c) (hr : c.Running = true) :
    createContainer input st = ⟨.ok c.Id, st, [.inspect]⟩ := by
  simp [createContainer, createContainerRun, inspectPhase, dockerInspect, h, hr]

/-- Found path, container stopped: `createContainer` inspects, starts the
existing container and returns its id. -/
theorem createContainer_found_stopped (input : CreateInput) (st : DockerState)
    (c : ContainerInfo) (h : st.container = some c) (hr : c.Running = false) :
    createContainer input st =
      ⟨.ok c.Id, { st with container := some { c with Running := true } },
        [.inspect, .start]⟩ := by
  simp [createContainer, createContainerRun, inspectPhase, dockerInspect,
    dockerStart, h, hr]

/-- Fresh path: with no container under the fixed name, `createContainer`
inspects (404), creates with the caller-supplied options, starts, and
returns the fresh id. -/
theorem createContainer_fresh (input : CreateInput) (st : DockerState)
    (h : st.container = none) :
    createContainer input st =
      ⟨.ok ("id-" ++ toString st.nextId),
        ⟨some ⟨"id-" ++ toString st.nextId, true, input.image, input.cmd,
          input.hostConfig⟩, st.nextId + 1⟩,
        [.inspect, .create input.image input.cmd input.hostConfig, .start]⟩ := by
  simp [createContainer, createContainerRun, inspectPhase, proceedCreate,
    dockerInspect, dockerCreate, dockerStart, h]

/-- Iterating `createContainer` over a running container repeats the same
id and only ever inspects. -/
theorem createContainerN_running (n : Nat) (input : CreateInput)
    (st : DockerState) (c : ContainerInfo) (h : st.container = some c)
    (hr : c.Running = true) :
    createContainerN n input st =
      (List.replicate n (.ok c.Id), st, List.replicate n Event.inspect) := by
  induction n with
  | zero => simp [createContainerN]
  | succ n ih =>
      simp [createContainerN, createContainer_found_running input st c h hr, ih,
        List.replicate_succ]

/-- Replicated inspect events contain no event a predicate rejecting
`Event.inspect` accepts. -/
theorem countP_inspect_replicate (n : Nat) (p : Event → Bool)
    (hp : p Event.inspect = false) :
    (List.replicate n Event.inspect).countP p = 0 := by
  induction n with
  | zero => simp
  | succ n ih => simp [List.replicate_succ, List.countP_cons, ih, hp]

/-- C10: when a container already exists under the fixed name,
`createContainer` returns its id without using the supplied image, cmd or
hostConfig at all: the whole outcome (result, daemon state, trace) is
identical for any two inputs, no create or remove is issued, and the stored
container keeps its id, image, cmd and hostConfig unchanged (only its
running flag may be set by the start). -/
theorem createContainer_ignores_input_when_found (input input2 : CreateInput)
    (st : DockerState) (c : ContainerInfo) (h : st.container = some c) :
    createContainer input st = createContainer input2 st ∧
    (createContainer input st).result = .ok c.Id ∧
    (createContainer input st).state.container = some { c with Running := true } ∧
    ∀ e ∈ (createContainer input st).trace, e.isCreate = false ∧ e.isRemove = false := by
  obtain ⟨cid, crun, cimg, ccmd, chc⟩ := c
  cases crun
  · rw [createContainer_found_stopped input st _ h rfl,
      createContainer_found_stopped input2 st _ h rfl]
    refine ⟨rfl, rfl, rfl, ?_⟩
    intro e he
    rcases (by simpa using he : e = Event.inspect ∨ e = Event.start) with rfl | rfl <;>
      exact ⟨rfl, rfl⟩
  · rw [createContainer_found_running input st _ h rfl,
      createContainer_found_running input2 st _ h rfl]
    refine ⟨rfl, rfl, by simp [h], ?_⟩
    intro e he
    rcases (by simpa using he : e = Event.inspect) with rfl
    exact ⟨rfl, rfl⟩

/-- C10 witness: a stopped container `id-7` exists; two calls differing in
image, cmd and hostConfig coincide and both return `id-7`. -/
theorem createContainer_ignores_input_when_found_witness :
    createContainer ⟨"img-a", none, none⟩
        ⟨some ⟨"id-7", false, "img-old", some ["sleep"], none⟩, 3⟩ =
      createContainer ⟨"img-b", some ["x"], some [("Binds", "v")]⟩
        ⟨some ⟨"id-7", false, "img-old", some ["sleep"], none⟩, 3⟩ ∧
    (createContainer ⟨"img-a", none, none⟩
        ⟨some ⟨"id-7", false, "img-old", some ["sleep"], none⟩, 3⟩).result = .ok "id-7" :=
  ⟨(createContainer_ignores_input_when_found ⟨"img-a", none, none⟩
      ⟨"img-b", some ["x"], some [("Binds", "v")]⟩ _ _ rfl).1,
   (createContainer_ignores_input_when_found ⟨"img-a", none, none⟩
      ⟨"img-b", some ["x"], some [("Binds", "v")]⟩ _ _ rfl).2.1⟩

/-- C6: removing when no container exists under the fixed name returns
`success := false` (nothing reported as removed) without throwing, for every
input, and leaves the daemon state unchanged. -/
theorem removeContainer_absent (input : RemoveInput) (st : DockerState)
    (h : st.container = none) :
    (removeContainer input st).result = .ok ⟨false⟩ ∧
    (removeContainer input st).state = st := by
  simp [removeContainer, dockerRemove, h]

/-- C6 witness: removing from the empty daemon state returns
`success := false`. -/
theorem removeContainer_absent_witness :
    (removeContainer ⟨true, true⟩ ⟨none, 5⟩).result = .ok ⟨false⟩ :=
  (removeContainer_absent ⟨true, true⟩ ⟨none, 5⟩ rfl).1

/-- C3 counterexample: removing the running container (force set, so the
remove succeeds) issues the remove as the only runtime call — no stop
precedes it, contradicting the claimed stop-then-remove order. -/
theorem removeContainer_no_stop_counterexample :
    (removeContainer ⟨true, false⟩
        ⟨some ⟨"id-0", true, "ubuntu", none, none⟩, 1⟩).result = .ok ⟨true⟩ ∧
    (removeContainer ⟨true, false⟩
        ⟨some ⟨"id-0", true, "ubuntu", none, none⟩, 1⟩).trace = [Event.remove true false] ∧
    Event.stop ∉ (removeContainer ⟨true, false⟩
        ⟨some ⟨"id-0", true, "ubuntu", none, none⟩, 1⟩).trace := by
  decide

/-- C3 amended: `removeContainer` never stops the container first; for every
input and state its only runtime call is the remove itself, carrying the
given force and volume-removal options. -/
theorem removeContainer_direct (input : RemoveInput) (st : DockerState) :
    (removeContainer input st).trace =
      [Event.remove input.force input.removeVolumes] ∧
    Event.stop ∉ (removeContainer input st).trace := by
  have htr : (removeContainer input st).trace =
      [Event.remove input.force input.removeVolumes] := by
    cases hdr : dockerRemove input.force st with
    | mk r st1 =>
        cases r with
        | ok u => simp [removeContainer, hdr]
        | error e => cases e <;> simp [removeContainer, hdr]
  exact ⟨htr, by simp [htr]⟩

/-- C2 counterexample: the create call forwards the caller-supplied `cmd`
unchanged — with cmd `["echo", "hi"]` the container is created with entry
command `["echo", "hi"]`, and with no cmd it is created with none, so the
entry command is not a fixed long-running no-op keeping the container
alive. -/
theorem createContainer_cmd_counterexample :
    (createContainer ⟨"ubuntu", some ["echo", "hi"], none⟩ ⟨none, 0⟩).trace =
      [Event.inspect, Event.create "ubuntu" (some ["echo", "hi"]) none, Event.start] ∧
    (createContainer ⟨"ubuntu", none, none⟩ ⟨none, 0⟩).trace =
      [Event.inspect, Event.create "ubuntu" none none, Event.start] ∧
    (some ["echo", "hi"] : Option (List String)) ≠ none := by
  decide

/-- C2 amended: when no container exists under the fixed name,
`createContainer` creates one bound to that name with exactly the
caller-supplied image, cmd and hostConfig (no keep-alive no-op entry command
is injected), starts it, and returns the new id. -/
theorem createContainer_creates_with_input (input : CreateInput)
    (st : DockerState) (h : st.container = none) :
    (createContainer input st).result = .ok ("id-" ++ toString st.nextId) ∧
    (createContainer input st).trace =
      [Event.inspect, Event.create input.image input.cmd input.hostConfig,
        Event.start] ∧
    (createContainer input st).state.container =
      some ⟨"id-" ++ toString st.nextId, true, input.image, input.cmd,
        input.hostConfig⟩ := by
  rw [createContainer_fresh input st h]
  exact ⟨rfl, rfl, rfl⟩

/-- C2 amended witness: creating from the empty daemon state with an echo
command. -/
theorem createContainer_creates_with_input_witness :
    (createContainer ⟨"ubuntu", some ["echo", "hi"], none⟩ ⟨none, 0⟩).result =
      .ok "id-0" ∧
    (createContainer ⟨"ubuntu", some ["echo", "hi"], none⟩ ⟨none, 0⟩).trace =
      [Event.inspect, Event.create "ubuntu" (some ["echo", "hi"]) none,
        Event.start] :=
  ⟨(createContainer_creates_with_input ⟨"ubuntu", some ["echo", "hi"], none⟩
      ⟨none, 0⟩ rfl).1,
   (createContainer_creates_with_input ⟨"ubuntu", some ["echo", "hi"], none⟩
      ⟨none, 0⟩ rfl).2.1⟩

/-- C1 counterexample: from the empty daemon state, with a concurrent create
landing in the window between the not-found inspect and the create call, the
create fails with the name conflict and `createContainer` propagates the
wrapped conflict as a fatal failure: exactly one inspect appears in the
trace (no re-inspection) and the now-existing id `id-0` is not returned. -/
theorem createContainer_conflict_counterexample :
    (createContainerRun (fun s => (dockerCreate "other" none none s).2)
        ⟨"ubuntu", none, none⟩ ⟨none, 0⟩).result =
      .error (createWrap DockerErr.conflict.message) ∧
    (createContainerRun (fun s => (dockerCreate "other" none none s).2)
        ⟨"ubuntu", none, none⟩ ⟨none, 0⟩).trace.count Event.inspect = 1 ∧
    (createContainerRun (fun s => (dockerCreate "other" none none s).2)
        ⟨"ubuntu", none, none⟩ ⟨none, 0⟩).result ≠ .ok "id-0" := by
  decide

/-- C1 amended: when the inspect reports not-found and a concurrent call
binds the fixed name before the create is issued, the create call fails with
the name conflict and `createContainer` propagates it as the wrapped fatal
failure of the outer catch; it issues no further inspect (the trace is the
one inspect followed by the failed create). -/
theorem createContainer_conflict_fatal (mid : DockerState → DockerState)
    (input : CreateInput) (st : DockerState) (c : ContainerInfo)
    (h : st.container = none) (hmid : (mid st).container = some c) :
    (createContainerRun mid input st).result =
      .error (createWrap DockerErr.conflict.message) ∧
    (createContainerRun mid input st).trace =
      [Event.inspect, Event.create input.image input.cmd input.hostConfig] := by
  simp [createContainerRun, inspectPhase, proceedCreate, dockerInspect,
    dockerCreate, h, hmid]

/-- C1 amended witness: the concrete race of the counterexample discharges
the hypotheses. -/
theorem createContainer_conflict_fatal_witness :
    (createContainerRun (fun s => (dockerCreate "other" none none s).2)
        ⟨"ubuntu", none, none⟩ ⟨none, 0⟩).result =
      .error (createWrap DockerErr.conflict.message) ∧
    (createContainerRun (fun s => (dockerCreate "other" none none s).2)
        ⟨"ubuntu", none, none⟩ ⟨none, 0⟩).trace =
      [Event.inspect, Event.create "ubuntu" none none] :=
  createContainer_conflict_fatal (fun s => (dockerCreate "other" none none s).2)
    ⟨"ubuntu", none, none⟩ ⟨none, 0⟩ ⟨"id-0", false, "other", none, none⟩ rfl rfl

/-- C4 counterexample: two spec-level command specs that differ only in
their working directory translate to the same source input and produce the
same exec configuration — the run-command operation of the source accepts no
working directory and cannot apply one. -/
theorem runCommand_no_workingDir_counterexample :
    mkExecConfig (toRunInput ⟨["pwd"], some "/a", false, true, true⟩) =
      mkExecConfig (toRunInput ⟨["pwd"], some "/b", false, true, true⟩) ∧
    (⟨["pwd"], some "/a", false, true, true⟩ : SpecCommandSpec) ≠
      ⟨["pwd"], some "/b", false, true, true⟩ := by
  decide

/-- C4 amended: the exec context `runCommandInContainer` creates is scoped
to exactly the argv, the two attach flags and the tty flag of its input —
its input schema and its exec call have no working-directory field — and
when the fixed name resolves, the exec call in the trace carries precisely
those fields. -/
theorem runCommand_exec_scope (input : RunInput) (st : DockerState)
    (c : ContainerInfo) (chunks : List (List Nat)) (ec : Option Int)
    (h : st.container = some c) :
    mkExecConfig input =
      ⟨input.cmd, input.attachStdout, input.attachStderr, input.tty⟩ ∧
    (runCommandInContainer input st chunks ec).trace =
      [Event.inspect, Event.exec (mkExecConfig input)] := by
  refine ⟨rfl, ?_⟩
  cases htty : input.tty <;>
    simp [runCommandInContainer, dockerInspect, h, htty]

/-- C4 amended witness: a concrete exec against the running container. -/
theorem runCommand_exec_scope_witness :
    (runCommandInContainer ⟨["ls", "/tmp"], true, false, false⟩
        ⟨some ⟨"id-0", true, "ubuntu", none, none⟩, 1⟩ [] (some 0)).trace =
      [Event.inspect, Event.exec ⟨["ls", "/tmp"], true, false, false⟩] :=
  (runCommand_exec_scope ⟨["ls", "/tmp"], true, false, false⟩
      ⟨some ⟨"id-0", true, "ubuntu", none, none⟩, 1⟩
      ⟨"id-0", true, "ubuntu", none, none⟩ [] (some 0) rfl).2

/-- C7: for every command input, stream data and exit code, running a
command while no container exists under the fixed name throws the distinct
sandbox-unavailable error (the wrapped does-not-exist message), issues no
create call, and leaves the daemon state unchanged: this task never creates
the sandbox. -/
theorem runCommand_absent_fails (input : RunInput) (st : DockerState)
    (chunks : List (List Nat)) (ec : Option Int) (h : st.container = none) :
    (runCommandInContainer input st chunks ec).result =
      .error (runWrap "N/A" containerMissingMsg) ∧
    (runCommandInContainer input st chunks ec).trace = [Event.inspect] ∧
    (runCommandInContainer input st chunks ec).trace.countP Event.isCreate = 0 ∧
    (runCommandInContainer input st chunks ec).state = st := by
  simp [runCommandInContainer, dockerInspect, h, List.countP_cons, Event.isCreate]

/-- C7 witness: a concrete run against the empty daemon state. -/
theorem runCommand_absent_fails_witness :
    (runCommandInContainer ⟨["echo", "hi"], true, true, false⟩ ⟨none, 0⟩
        [[1, 2]] (some 0)).result =
      .error (runWrap "N/A" containerMissingMsg) ∧
    (runCommandInContainer ⟨["echo", "hi"], true, true, false⟩ ⟨none, 0⟩
        [[1, 2]] (some 0)).trace.countP Event.isCreate = 0 :=
  ⟨(runCommand_absent_fails ⟨["echo", "hi"], true, true, false⟩ ⟨none, 0⟩
      [[1, 2]] (some 0) rfl).1,
   (runCommand_absent_fails ⟨["echo", "hi"], true, true, false⟩ ⟨none, 0⟩
      [[1, 2]] (some 0) rfl).2.2.1⟩

/-- C8: in tty mode, whatever chunks the command writes to the stream, the
returned stderr is the empty byte sequence and the raw stream is read
entirely into stdout. -/
theorem runCommand_tty_stderr_empty (input : RunInput) (st : DockerState)
    (c : ContainerInfo) (chunks : List (List Nat)) (ec : Option Int)
    (h : st.container = some c) (htty : input.tty = true) :
    (runCommandInContainer input st chunks ec).result =
      .ok ⟨chunks.flatten, [], ec⟩ := by
  simp [runCommandInContainer, dockerInspect, h, htty]

/-- C8 witness: a tty run whose stream carries bytes on both channels of the
underlying pty still reports empty stderr. -/
theorem runCommand_tty_stderr_empty_witness :
    (runCommandInContainer ⟨["sh"], true, true, true⟩
        ⟨some ⟨"id-0", true, "ubuntu", none, none⟩, 1⟩
        [[111, 117], [116]] (some 0)).result =
      .ok ⟨[111, 117, 116], [], some 0⟩ :=
  runCommand_tty_stderr_empty ⟨["sh"], true, true, true⟩
    ⟨some ⟨"id-0", true, "ubuntu", none, none⟩, 1⟩
    ⟨"id-0", true, "ubuntu", none, none⟩ [[111, 117], [116]] (some 0) rfl rfl

/-- C5: `createContainer` is idempotent. Over any number of sequential calls
with the same input, every call returns the same id (the `predictedId` of
the initial state), at most one create call reaches the runtime, and when a
container is found existing no call creates or removes anything — the
found path issues only the inspect plus, when the container was stopped,
one start. -/
theorem createContainer_idempotent (n : Nat) (input : CreateInput)
    (st : DockerState) :
    (∀ r ∈ (createContainerN n input st).1, r = .ok (predictedId st)) ∧
    (createContainerN n input st).2.2.countP Event.isCreate ≤ 1 ∧
    (∀ c, st.container = some c →
      (createContainerN n input st).2.2.countP Event.isCreate = 0 ∧
      (createContainerN n input st).2.2.countP Event.isRemove = 0 ∧
      (createContainer input st).trace =
        if c.Running then [Event.inspect] else [Event.inspect, Event.start]) := by
  cases hst : st.container with
  | none =>
      cases n with
      | zero => simp [createContainerN, hst]
      | succ n =>
          have hf := createContainer_fresh input st hst
          have hrun := createContainerN_running n input
            ⟨some ⟨"id-" ++ toString st.nextId, true, input.image, input.cmd,
              input.hostConfig⟩, st.nextId + 1⟩
            ⟨"id-" ++ toString st.nextId, true, input.image, input.cmd,
              input.hostConfig⟩ rfl rfl
          refine ⟨?_, ?_, ?_⟩
          · intro r hr
            simp only [createContainerN, hf, hrun, List.mem_cons] at hr
            rcases hr with rfl | hr
            · simp [predictedId, hst]
            · have := List.eq_of_mem_replicate hr
              simp [this, predictedId, hst]
          · simp only [createContainerN, hf, hrun]
            simp [List.countP_append, List.countP_cons, Event.isCreate,
              countP_inspect_replicate]
          · intro c hc
            exact absurd hc (by simp)
  | some c =>
      obtain ⟨cid, crun, cimg, ccmd, chc⟩ := c
      cases crun
      · cases n with
        | zero =>
            refine ⟨by simp [createContainerN], by simp [createContainerN], ?_⟩
            intro c' hc'
            have := Option.some.inj hc'
            subst this
            simp [createContainerN,
              createContainer_found_stopped input st _ hst rfl]
        | succ n =>
            have hf := createContainer_found_stopped input st _ hst rfl
            have hrun := createContainerN_running n input
              { st with container := some ⟨cid, true, cimg, ccmd, chc⟩ }
              ⟨cid, true, cimg, ccmd, chc⟩ rfl rfl
            refine ⟨?_, ?_, ?_⟩
            · intro r hr
              simp only [createContainerN, hf, hrun, List.mem_cons] at hr
              rcases hr with rfl | hr
              · simp [predictedId, hst]
              · have := List.eq_of_mem_replicate hr
                simp [this, predictedId, hst]
            · simp only [createContainerN, hf, hrun]
              simp [List.countP_append, List.countP_cons, Event.isCreate,
                countP_inspect_replicate]
            · intro c' hc'
              have := Option.some.inj hc'
              subst this
              refine ⟨?_, ?_, ?_⟩
              · simp only [createContainerN, hf, hrun]
                simp [List.countP_append, List.countP_cons, Event.isCreate,
                  countP_inspect_replicate]
              · simp only [createContainerN, hf, hrun]
                simp [List.countP_append, List.countP_cons, Event.isRemove,
                  countP_inspect_replicate]
              · simp [hf]
      · have hrun := createContainerN_running n input st
          ⟨cid, true, cimg, ccmd, chc⟩ hst rfl
        refine ⟨?_, ?_, ?_⟩
        · intro r hr
          rw [hrun] at hr
          have := List.eq_of_mem_replicate hr
          simp [this, predictedId, hst]
        · rw [hrun]
          simp [countP_inspect_replicate, Event.isCreate]
        · intro c' hc'
          have := Option.some.inj hc'
          subst this
          rw [hrun]
          refine ⟨by simp [countP_inspect_replicate, Event.isCreate],
            by simp [countP_inspect_replicate, Event.isRemove], ?_⟩
          simp [createContainer_found_running input st _ hst rfl]

/-- C5 witness: three calls over a pre-existing stopped container return its
id three times with zero creates, and the single-call found path issues the
inspect and one start. -/
theorem createContainer_idempotent_witness :
    (∀ r ∈ (createContainerN 3 ⟨"ubuntu", none, none⟩
        ⟨some ⟨"id-9", false, "ubuntu", none, none⟩, 10⟩).1,
      r = .ok (predictedId ⟨some ⟨"id-9", false, "ubuntu", none, none⟩, 10⟩)) ∧
    (createContainerN 3 ⟨"ubuntu", none, none⟩
        ⟨some ⟨"id-9", false, "ubuntu", none, none⟩, 10⟩).2.2.countP
      Event.isCreate = 0 ∧
    (createContainer ⟨"ubuntu", none, none⟩
        ⟨some ⟨"id-9", false, "ubuntu", none, none⟩, 10⟩).trace =
      [Event.inspect, Event.start] := by
  have h := createContainer_idempotent 3 ⟨"ubuntu", none, none⟩
    ⟨some ⟨"id-9", false, "ubuntu", none, none⟩, 10⟩
  refine ⟨h.1, (h.2.2 _ rfl).1, ?_⟩
  have := (h.2.2 ⟨"id-9", false, "ubuntu", none, none⟩ rfl).2.2
  simpa using this

/-! Infrastructure for the demultiplexer proofs: each step strictly
decreases the measure, the fuelled runner is fuel-irrelevant past the
measure, and running is invariant under buffering more bytes behind the
bytes already present. -/

/-- A successful demultiplexer step strictly decreases the measure. -/
theorem demuxStep_measure {s s' : DemuxState} (h : demuxStep s = some s') :
    demuxMeasure s' < demuxMeasure s := by
  obtain ⟨buf, pend, so, se⟩ := s
  cases pend with
  | none =>
      by_cases hle : 8 ≤ buf.length
      · simp only [demuxStep, if_pos hle, Option.some.injEq] at h
        subst h
        simp [demuxMeasure]
        omega
      · simp [demuxStep, hle] at h
  | some tl =>
      obtain ⟨t, len⟩ := tl
      by_cases hle : len ≤ buf.length
      · simp only [demuxStep, if_pos hle, Option.some.injEq] at h
        subst h
        simp [demuxMeasure]
        omega
      · simp [demuxStep, hle] at h

/-- A state of measure zero is stuck. -/
theorem demuxStep_of_measure_zero {s : DemuxState} (h : demuxMeasure s = 0) :
    demuxStep s = none := by
  cases hstep : demuxStep s with
  | none => rfl
  | some s' => have := demuxStep_measure hstep; omega

/-- Any two fuels at least the measure run the demultiplexer to the same
state. -/
theorem demuxRunFuel_congr : ∀ (f1 f2 : Nat) (s : DemuxState),
    demuxMeasure s ≤ f1 → demuxMeasure s ≤ f2 →
    demuxRunFuel f1 s = demuxRunFuel f2 s := by
  intro f1
  induction f1 with
  | zero =>
      intro f2 s h1 h2
      have hst := demuxStep_of_measure_zero (Nat.le_zero.mp h1)
      cases f2 <;> simp [demuxRunFuel, hst]
  | succ f1 ih =>
      intro f2 s h1 h2
      cases hstep : demuxStep s with
      | none => cases f2 <;> simp [demuxRunFuel, hstep]
      | some s' =>
          have hm := demuxStep_measure hstep
          cases f2 with
          | zero => omega
          | succ f2 =>
              simp only [demuxRunFuel, hstep]
              exact ih f2 s' (by omega) (by omega)

/-- A stuck state runs to itself. -/
theorem demuxRun_none {s : DemuxState} (h : demuxStep s = none) :
    demuxRun s = s := by
  unfold demuxRun
  cases demuxMeasure s <;> simp [demuxRunFuel, h]

/-- Running from a state equals running from its successor state. -/
theorem demuxRun_some {s s' : DemuxState} (h : demuxStep s = some s') :
    demuxRun s = demuxRun s' := by
  have hm := demuxStep_measure h
  unfold demuxRun
  cases hms : demuxMeasure s with
  | zero => omega
  | succ m =>
      simp only [demuxRunFuel, h]
      exact demuxRunFuel_congr m (demuxMeasure s') s' (by omega) le_rfl

/-- The runner always ends in a stuck state. -/
theorem demuxRun_stuck_aux : ∀ (n : Nat) (s : DemuxState), demuxMeasure s ≤ n →
    demuxStep (demuxRun s) = none := by
  intro n
  induction n with
  | zero =>
      intro s h
      have hst := demuxStep_of_measure_zero (Nat.le_zero.mp h)
      rw [demuxRun_none hst]
      exact hst
  | succ n ih =>
      intro s h
      cases hstep : demuxStep s with
      | none => rw [demuxRun_none hstep]; exact hstep
      | some s' =>
          rw [demuxRun_some hstep]
          exact ih s' (by have := demuxStep_measure hstep; omega)

/-- The runner always ends in a stuck state. -/
theorem demuxRun_stuck (s : DemuxState) : demuxStep (demuxRun s) = none :=
  demuxRun_stuck_aux (demuxMeasure s) s le_rfl

/-- Reading the big-endian length field only looks at the first four bytes. -/
theorem readBE32_append_of_le (x b : List Nat) (h : 4 ≤ x.length) :
    readBE32 (x ++ b) = readBE32 x := by
  unfold readBE32
  rw [List.getD_append _ _ _ _ (by omega), List.getD_append _ _ _ _ (by omega),
    List.getD_append _ _ _ _ (by omega), List.getD_append _ _ _ _ (by omega)]

/-- A successful step is unchanged by bytes buffered behind the bytes it
consumes: the step commutes with appending to the end of the buffer. -/
theorem demuxStep_append {s s' : DemuxState} (b : List Nat)
    (h : demuxStep s = some s') :
    demuxStep { s with buffer := s.buffer ++ b } =
      some { s' with buffer := s'.buffer ++ b } := by
  obtain ⟨buf, pend, so, se⟩ := s
  cases pend with
  | none =>
      by_cases hle : 8 ≤ buf.length
      · simp only [demuxStep, if_pos hle, Option.some.injEq] at h
        subst h
        have h8 : 8 ≤ (buf ++ b).length := by simp; omega
        simp only [demuxStep, if_pos h8]
        rw [List.drop_append_of_le_length hle,
          List.drop_append_of_le_length (by omega : 4 ≤ buf.length),
          List.getD_append _ _ _ _ (by omega : 0 < buf.length),
          readBE32_append_of_le _ _ (by simp; omega)]
      · simp [demuxStep, hle] at h
  | some tl =>
      obtain ⟨t, len⟩ := tl
      by_cases hle : len ≤ buf.length
      · simp only [demuxStep, if_pos hle, Option.some.injEq] at h
        subst h
        have hlen : len ≤ (buf ++ b).length := by simp; omega
        simp only [demuxStep, if_pos hlen]
        rw [List.drop_append_of_le_length hle, List.take_append_of_le_length hle]
      · simp [demuxStep, hle] at h

/-- Running after appending bytes equals appending the bytes to the result
of running and continuing: complete records already buffered decode the
same whether the later bytes have arrived or not. -/
theorem demuxRun_append_aux : ∀ (n : Nat) (s : DemuxState) (b : List Nat),
    demuxMeasure s ≤ n →
    demuxRun { demuxRun s with buffer := (demuxRun s).buffer ++ b } =
      demuxRun { s with buffer := s.buffer ++ b } := by
  intro n
  induction n with
  | zero =>
      intro s b h
      rw [demuxRun_none (demuxStep_of_measure_zero (Nat.le_zero.mp h))]
  | succ n ih =>
      intro s b h
      cases hstep : demuxStep s with
      | none => rw [demuxRun_none hstep]
      | some s' =>
          rw [demuxRun_some hstep, demuxRun_some (demuxStep_append b hstep)]
          exact ih s' b (by have := demuxStep_measure hstep; omega)

/-- Restartability of the decoder across chunk boundaries. -/
theorem demuxRun_append (s : DemuxState) (b : List Nat) :
    demuxRun { demuxRun s with buffer := (demuxRun s).buffer ++ b } =
      demuxRun { s with buffer := s.buffer ++ b } :=
  demuxRun_append_aux (demuxMeasure s) s b le_rfl

/-- Feeding chunks one at a time and then running equals running once on
the concatenation of all chunks. -/
theorem demuxFeedAll_run (chunks : List (List Nat)) : ∀ s : DemuxState,
    demuxRun (demuxFeedAll s chunks) =
      demuxRun { s with buffer := s.buffer ++ chunks.flatten } := by
  induction chunks with
  | nil => intro s; simp [demuxFeedAll]
  | cons c cs ih =>
      intro s
      rw [show demuxFeedAll s (c :: cs) = demuxFeedAll (demuxFeed s c) cs from rfl,
        ih, demuxFeed, demuxRun_append]
      simp [List.append_assoc]

/-- Feeding chunks into a stuck state leaves a stuck state. -/
theorem demuxFeedAll_stuck (chunks : List (List Nat)) : ∀ s : DemuxState,
    demuxStep s = none → demuxStep (demuxFeedAll s chunks) = none := by
  induction chunks with
  | nil => intro s h; exact h
  | cons c cs ih =>
      intro s _
      exact ih (demuxFeed s c) (demuxRun_stuck _)

/-- The decoder state after a whole chunked stream, from the initial state,
is the run over the concatenated bytes. -/
theorem demuxFeedAll_initDemux (chunks : List (List Nat)) :
    demuxFeedAll initDemux chunks = demuxRun ⟨chunks.flatten, none, [], []⟩ := by
  calc demuxFeedAll initDemux chunks
      = demuxRun (demuxFeedAll initDemux chunks) :=
        (demuxRun_none (demuxFeedAll_stuck chunks initDemux rfl)).symm
    _ = demuxRun { initDemux with buffer := initDemux.buffer ++ chunks.flatten } :=
        demuxFeedAll_run chunks initDemux
    _ = demuxRun ⟨chunks.flatten, none, [], []⟩ := by simp [initDemux]

/-- With a full 8-byte header at the front of the buffer and no pending
record, one step consumes the header: tag byte, three reserved bytes, and
the big-endian length. -/
theorem demuxStep_header (tb b2 b3 b4 l1 l2 l3 l4 : Nat) (rest out err : List Nat) :
    demuxStep ⟨tb :: b2 :: b3 :: b4 :: l1 :: l2 :: l3 :: l4 :: rest, none, out, err⟩ =
      some ⟨rest, some (tb, l1 * 2 ^ 24 + l2 * 2 ^ 16 + l3 * 2 ^ 8 + l4), out, err⟩ := by
  have h8 : 8 ≤ (tb :: b2 :: b3 :: b4 :: l1 :: l2 :: l3 :: l4 :: rest).length := by
    simp
  simp [demuxStep, h8, readBE32]

/-- With the whole declared payload at the front of the buffer, one step
emits it to the sink the tag names and clears the pending record. -/
theorem demuxStep_payload (t len : Nat) (p rest out err : List Nat)
    (hp : p.length = len) :
    demuxStep ⟨p ++ rest, some (t, len), out, err⟩ =
      some ⟨rest, none, if t = 1 then out ++ p else out,
        if t = 2 then err ++ p else err⟩ := by
  subst hp
  have hle : p.length ≤ (p ++ rest).length := by simp
  simp [demuxStep, hle, List.take_left, List.drop_left]

/-- Decoding a buffer holding exactly the frames of a record sequence
appends each payload to the sink of its tag and consumes the whole buffer. -/
theorem demuxRun_framesOf : ∀ (records : List (Bool × List Nat)),
    (∀ r ∈ records, r.2.length < 2 ^ 32) →
    ∀ out err : List Nat, demuxRun ⟨framesOf records, none, out, err⟩ =
      ⟨[], none, out ++ stdoutOf records, err ++ stderrOf records⟩ := by
  intro records
  induction records with
  | nil =>
      intro _ out err
      rw [demuxRun_none (by simp [demuxStep, framesOf])]
      simp [framesOf, stdoutOf, stderrOf]
  | cons r rs ih =>
      obtain ⟨tag, p⟩ := r
      intro h out err
      have hlen : p.length < 2 ^ 32 := h (tag, p) (by simp)
      have hrs : ∀ r ∈ rs, r.2.length < 2 ^ 32 := fun r hr => h r (by simp [hr])
      have hbe : p.length / 2 ^ 24 % 256 * 2 ^ 24 + p.length / 2 ^ 16 % 256 * 2 ^ 16 +
          p.length / 2 ^ 8 % 256 * 2 ^ 8 + p.length % 256 = p.length := by
        omega
      cases tag with
      | true =>
          rw [show (⟨framesOf ((true, p) :: rs), none, out, err⟩ : DemuxState) =
              ⟨(1 : Nat) :: 0 :: 0 :: 0 :: (p.length / 2 ^ 24 % 256) ::
                (p.length / 2 ^ 16 % 256) :: (p.length / 2 ^ 8 % 256) ::
                (p.length % 256) :: (p ++ framesOf rs), none, out, err⟩ from by
            simp [framesOf, frameOf, toBE32]]
          rw [demuxRun_some (demuxStep_header _ _ _ _ _ _ _ _ _ _ _), hbe]
          rw [demuxRun_some (demuxStep_payload 1 p.length p (framesOf rs) out err rfl)]
          rw [show (if (1 : Nat) = 1 then out ++ p else out) = out ++ p from by simp,
            show (if (1 : Nat) = 2 then err ++ p else err) = err from by simp]
          rw [ih hrs (out ++ p) err]
          simp [stdoutOf, stderrOf, List.append_assoc]
      | false =>
          rw [show (⟨framesOf ((false, p) :: rs), none, out, err⟩ : DemuxState) =
              ⟨(2 : Nat) :: 0 :: 0 :: 0 :: (p.length / 2 ^ 24 % 256) ::
                (p.length / 2 ^ 16 % 256) :: (p.length / 2 ^ 8 % 256) ::
                (p.length % 256) :: (p ++ framesOf rs), none, out, err⟩ from by
            simp [framesOf, frameOf, toBE32]]
          rw [demuxRun_some (demuxStep_header _ _ _ _ _ _ _ _ _ _ _), hbe]
          rw [demuxRun_some (demuxStep_payload 2 p.length p (framesOf rs) out err rfl)]
          rw [show (if (2 : Nat) = 1 then out ++ p else out) = out from by simp,
            show (if (2 : Nat) = 2 then err ++ p else err) = err ++ p from by simp]
          rw [ih hrs out (err ++ p)]
          simp [stdoutOf, stderrOf, List.append_assoc]

/-- C9: in non-interactive mode, for any record sequence and any splitting
of its framed byte sequence into stream chunks (records may be cut across
chunk boundaries), `runCommandInContainer` returns exactly the stdout-tagged
payloads as stdout and the stderr-tagged payloads as stderr, each channel
uncontaminated by the other. -/
theorem runCommand_demux_roundtrip (records : List (Bool × List Nat))
    (chunks : List (List Nat)) (input : RunInput) (st : DockerState)
    (c : ContainerInfo) (ec : Option Int)
    (h : st.container = some c) (htty : input.tty = false)
    (hlen : ∀ r ∈ records, r.2.length < 2 ^ 32)
    (hsplit : chunks.flatten = framesOf records) :
    (runCommandInContainer input st chunks ec).result =
      .ok ⟨stdoutOf records, stderrOf records, ec⟩ := by
  have hfeed : demuxFeedAll initDemux chunks =
      ⟨[], none, stdoutOf records, stderrOf records⟩ := by
    rw [demuxFeedAll_initDemux, hsplit, demuxRun_framesOf records hlen [] []]
    simp
  simp [runCommandInContainer, dockerInspect, h, htty, hfeed]

/-- C9 witness: the stream carries a stdout record "out" followed by a
stderr record "err", split into two chunks with the cut inside the first
header; both payloads land on their own channel. -/
theorem runCommand_demux_roundtrip_witness :
    (runCommandInContainer ⟨["sh"], true, true, false⟩
        ⟨some ⟨"id-0", true, "ubuntu", none, none⟩, 1⟩
        [[1, 0, 0, 0, 0], [0, 0, 3, 111, 117, 116, 2, 0, 0, 0, 0, 0, 0, 3, 101, 114, 114]]
        (some 0)).result =
      .ok ⟨[111, 117, 116], [101, 114, 114], some 0⟩ :=
  runCommand_demux_roundtrip [(true, [111, 117, 116]), (false, [101, 114, 114])]
    [[1, 0, 0, 0, 0], [0, 0, 3, 111, 117, 116, 2, 0, 0, 0, 0, 0, 0, 3, 101, 114, 114]]
    ⟨["sh"], true, true, false⟩ ⟨some ⟨"id-0", true, "ubuntu", none, none⟩, 1⟩
    ⟨"id-0", true, "ubuntu", none, none⟩ (some 0) rfl rfl (by decide) (by decide)

end ComputerTs
